import Mathlib

/-!
Verification of the quote-fetching provider (`ZeroxProvider.get_quote`) of the
routers-benchmarking repository, as a shallow embedding in Lean.

Modelling conventions:
* JSON values decoded by Python's `json` module are modelled by the inductive
  type `Json` (objects as association lists; the response body is assumed to be
  a JSON object, as the aggregator API returns objects).
* Python `float` arithmetic is modelled exactly over `ℚ`: parsing a numeric
  string, dividing by `10 ** d`, and `str()`-formatting are all exact.  This is
  faithful whenever the values involved are exactly representable in binary64
  (as in every scenario of the spec); IEEE rounding effects are outside the
  model.  Python's `str(float)` positional/scientific formatting thresholds are
  reproduced in `pyReprFloat`.
* The single outbound HTTP call is modelled by passing the call's outcome
  (`HttpResult`: either a `Response` with status code and JSON-object body, or
  a raised transport exception with no response object) as an explicit input,
  together with the measured wall-clock elapsed time.
* `requests.Response.raise_for_status` raises exactly for status codes in
  `[400, 600)`, and the `HTTPError` it raises carries the response; transport
  errors raised by `requests.get` itself (timeout, connection error) carry no
  response.
* The result dictionaries returned by `get_quote` are modelled as association
  lists from key strings to Python values (`PyVal`), so key presence/absence is
  observable.
-/

/-- JSON values as decoded by Python's `json` module.  Integer literals decode
to Python `int` (`intNum`), other numeric literals to Python `float`
(`floatNum`, modelled exactly as a rational). -/
inductive Json where
  | null : Json
  | bool (b : Bool) : Json
  | intNum (n : Int) : Json
  | floatNum (q : ℚ) : Json
  | str (s : String) : Json
  | arr (xs : List Json) : Json
  | obj (fields : List (String × Json)) : Json
deriving BEq

/-- Python truthiness of a JSON-decoded value: `None`, `False`, `0`, `0.0`,
`""`, `[]` and the empty dict are falsy, everything else is truthy.  This is
the test performed by `if raw_output:` in `get_quote`. -/
def pyTruthy : Json → Bool
  | .null => false
  | .bool b => b
  | .intNum n => n != 0
  | .floatNum q => q != 0
  | .str s => s != ""
  | .arr xs => !xs.isEmpty
  | .obj fs => !fs.isEmpty

/-- Strips factors of 10 from a positive natural number, returning the stripped
number and how many factors were removed.  Fuel-bounded (the fuel bounds the
number of strippable zeros). -/
def stripTenFactors : Nat → Nat → Nat × Nat
  | 0, n => (n, 0)
  | fuel + 1, n =>
    if n % 10 == 0 && n != 0 then
      let p := stripTenFactors fuel (n / 10)
      (p.1, p.2 + 1)
    else (n, 0)

/-- Finds the least `k` (up to the fuel bound) with `den ∣ num * 10 ^ k`, i.e.
the length of the finite decimal expansion of `num / den`.  Every value
produced by the provider's arithmetic has such a `k`. -/
def decExpansionLen (num den : Nat) : Nat → Nat → Option Nat
  | k, 0 => if num * 10 ^ k % den == 0 then some k else none
  | k, fuel + 1 =>
    if num * 10 ^ k % den == 0 then some k else decExpansionLen num den (k + 1) fuel

/-- Renders a positive rational with a finite decimal expansion the way
CPython's `repr` renders the corresponding `float`: positional notation with at
least one fractional digit when the decimal exponent lies in `[-4, 16)`, and
scientific notation (sign and at least two exponent digits) otherwise. -/
def pyPosRepr (q : ℚ) : String :=
  match decExpansionLen q.num.natAbs q.den 0 256 with
  | none => toString q.num.natAbs ++ "/" ++ toString q.den
  | some k0 =>
    let n0 := q.num.natAbs * 10 ^ k0 / q.den
    let p := stripTenFactors 256 n0
    let ds := toString p.1
    let k : Int := (k0 : Int) - (p.2 : Int)
    let eps : Int := (ds.length : Int) - 1 - k
    if -4 ≤ eps ∧ eps < 16 then
      if k ≤ 0 then
        ds ++ String.mk (List.replicate (-k).toNat '0') ++ ".0"
      else if ds.length > k.toNat then
        ds.take (ds.length - k.toNat) ++ "." ++ ds.drop (ds.length - k.toNat)
      else
        "0." ++ String.mk (List.replicate (k.toNat - ds.length) '0') ++ ds
    else
      let mant := if ds.length == 1 then ds else ds.take 1 ++ "." ++ ds.drop 1
      let a := eps.natAbs
      mant ++ "e" ++ (if eps < 0 then "-" else "+") ++
        (if a < 10 then "0" ++ toString a else toString a)

/-- Python `str()` of a float value, modelled exactly on rationals with finite
decimal expansion. -/
def pyReprFloat (q : ℚ) : String :=
  if q = 0 then "0.0" else if q < 0 then "-" ++ pyPosRepr (-q) else pyPosRepr q

/-- Whitespace recognized when Python's `float(str)` strips its argument. -/
def pySpace (c : Char) : Bool :=
  c == ' ' || c == '\t' || c == '\n' || c == '\r'

/-- Strips leading and trailing whitespace from a character list. -/
def pyStripChars (l : List Char) : List Char :=
  ((l.dropWhile pySpace).reverse.dropWhile pySpace).reverse

/-- ASCII lower-casing of one character, as Python's `str.lower()` acts on the
ASCII hex addresses used here. -/
def lowerChar (c : Char) : Char :=
  if 65 ≤ c.toNat ∧ c.toNat ≤ 90 then Char.ofNat (c.toNat + 32) else c

/-- Python's `str.lower()`, modelled for ASCII strings (token addresses are
ASCII hex strings). -/
def pyLower (s : String) : String := ⟨s.data.map lowerChar⟩

/-- Numeric value of a list of decimal digit characters. -/
def digitsVal (l : List Char) : Nat :=
  l.foldl (fun a c => a * 10 + (c.toNat - 48)) 0

/-- Parses the exponent part (after `e`/`E`) of a Python float literal. -/
def parseExpDigits : List Char → Option Int
  | '+' :: ds => if ds ≠ [] ∧ ds.all (·.isDigit) then some (digitsVal ds) else none
  | '-' :: ds => if ds ≠ [] ∧ ds.all (·.isDigit) then some (-(digitsVal ds : Int)) else none
  | ds => if ds ≠ [] ∧ ds.all (·.isDigit) then some (digitsVal ds) else none

/-- Applies a base-10 exponent to a rational. -/
def applyExp10 (base : ℚ) (e : Int) : ℚ := base * (10 : ℚ) ^ e

/-- Parses an unsigned Python float literal (digits, optional fraction,
optional exponent).  Exact-rational idealization of CPython's `float(str)`:
`inf`/`nan` and digit-group underscores are outside the model (rejected). -/
def parseUnsignedFloat (l : List Char) : Option ℚ :=
  let ip := l.takeWhile (·.isDigit)
  let rest := l.dropWhile (·.isDigit)
  match rest with
  | [] => if ip = [] then none else some (digitsVal ip : ℚ)
  | '.' :: r2 =>
    let fp := r2.takeWhile (·.isDigit)
    let r3 := r2.dropWhile (·.isDigit)
    if ip = [] ∧ fp = [] then none
    else
      let base : ℚ := (digitsVal ip : ℚ) + (digitsVal fp : ℚ) / 10 ^ fp.length
      match r3 with
      | [] => some base
      | 'e' :: r4 => (parseExpDigits r4).map (applyExp10 base)
      | 'E' :: r4 => (parseExpDigits r4).map (applyExp10 base)
      | _ => none
  | 'e' :: r4 => if ip = [] then none else (parseExpDigits r4).map (applyExp10 (digitsVal ip))
  | 'E' :: r4 => if ip = [] then none else (parseExpDigits r4).map (applyExp10 (digitsVal ip))
  | _ => none

/-- Python `float(s)` on a string: strips surrounding whitespace, accepts an
optional sign, then an unsigned float literal.  `none` models a raised
`ValueError`. -/
def pyFloatOfString (s : String) : Option ℚ :=
  match pyStripChars s.toList with
  | '+' :: r => parseUnsignedFloat r
  | '-' :: r => (parseUnsignedFloat r).map Neg.neg
  | l => parseUnsignedFloat l

/-- Fuel-bounded Python `repr` of a JSON-decoded value (string escaping left
out of the model).  The rendering is exact whenever the fuel dominates the
nesting depth of the value. -/
def pyReprJsonF : Nat → Json → String
  | _, .null => "None"
  | _, .bool b => if b then "True" else "False"
  | _, .intNum n => toString n
  | _, .floatNum q => pyReprFloat q
  | _, .str s => "'" ++ s ++ "'"
  | 0, _ => ""
  | fuel + 1, .arr xs =>
    "[" ++ String.intercalate ", " (xs.map (pyReprJsonF fuel)) ++ "]"
  | fuel + 1, .obj fs =>
    "\x7b" ++ String.intercalate ", "
      (fs.map (fun p => "'" ++ p.1 ++ "': " ++ pyReprJsonF fuel p.2)) ++ "\x7d"

/-- Python `repr` of a JSON-decoded value.  The fixed fuel bounds the nesting
depth of container values; it is never approached by any value considered
here. -/
def pyReprJson (j : Json) : String := pyReprJsonF 1000 j

/-- Python `str()` of a JSON-decoded value, as applied by `get_quote`'s
fallback `str(raw_output)`. -/
def pyStrOfJson : Json → String
  | .str s => s
  | .intNum n => toString n
  | .floatNum q => pyReprFloat q
  | .bool b => if b then "True" else "False"
  | .null => "None"
  | .arr xs => pyReprJson (.arr xs)
  | .obj fs => pyReprJson (.obj fs)

/-- Python `float(x)` on a JSON-decoded value: numbers and numeric strings
convert, booleans convert to 0/1, everything else raises (`none`). -/
def pyFloatOfJson : Json → Option ℚ
  | .str s => pyFloatOfString s
  | .intNum n => some (n : ℚ)
  | .floatNum q => some q
  | .bool b => some (if b then 1 else 0)
  | .null => none
  | .arr _ => none
  | .obj _ => none

/-- Python runtime values appearing in the result dictionaries built by
`get_quote`. -/
inductive PyVal where
  | none : PyVal
  | str (s : String) : PyVal
  | int (n : Int) : PyVal
  | rat (q : ℚ) : PyVal
  | json (j : Json) : PyVal
deriving BEq

/-- A token reference of the static chain configuration
(`src/apps/api/src/data/chain.py`). -/
structure Token where
  address : String
  symbol : String
  decimals : Nat

/-- Configuration of one chain: blockchain label, normalization token and the
ordered trading-token list (`src/apps/api/src/data/chain.py`). -/
structure ChainCfg where
  blockchain : String
  normalization_token : Token
  trading_tokens : List Token

/-- The static per-chain configuration table `CHAIN_CONFIG` of
`src/apps/api/src/data/chain.py`, transcribed verbatim (addresses keep their
original casing). -/
def CHAIN_CONFIG : List (String × ChainCfg) :=
  [("999",
    { blockchain := "hyperevm",
      normalization_token :=
        { address := "0x5d3a1ff2b6bab83b63cd9ad0787074081a52ef34",
          symbol := "USDe", decimals := 18 },
      trading_tokens :=
        [{ address := "0xb8ce59fc3717ada4c02eadf9682a9e934f625ebb",
           symbol := "USDT0", decimals := 6 },
         { address := "0x02c6a2fa58cc01a18b8d9e00ea48d65e4df26c70",
           symbol := "FEUSD", decimals := 18 },
         { address := "0x5555555555555555555555555555555555555555",
           symbol := "HYPE", decimals := 18 },
         { address := "0xffaa4a3d97fe9107cef8a3f48c069f577ff76cc1",
           symbol := "stHYPE", decimals := 18 },
         { address := "0x5748ae796ae46a4f1348a1693de4b50560485562",
           symbol := "LHYPE", decimals := 18 },
         { address := "0xca79db4b49f608ef54a5cb813fbed3a6387bc645",
           symbol := "USDXL", decimals := 18 },
         { address := "0x9fdbda0a5e284c32744d2f17ee5c74b284993463",
           symbol := "UBTC", decimals := 8 },
         { address := "0x94e8396e0869c9f2200760af0621afd240e1cf38",
           symbol := "WSTHYPE", decimals := 18 },
         { address := "0x9b498c3c8a0b8cd8ba1d9851d40d186f1872b44e",
           symbol := "PURR", decimals := 18 },
         { address := "0xfD739d4e423301CE9385c1fb8850539D657C296D",
           symbol := "kHYPE", decimals := 18 },
         { address := "0xcb0ac0aa94c67dde8688ac34c8e4d6c18e78b638",
           symbol := "LIQD", decimals := 6 },
         { address := "0xf4d9235269a96aadafc9adae454a0618ebe37949",
           symbol := "XAUTO", decimals := 6 },
         { address := "0x27ec642013bcb3d80ca3706599d3cda04f6f4452",
           symbol := "UPUMP", decimals := 6 },
         { address := "0xb50A96253aBDF803D85efcDce07Ad8becBc52BD5",
           symbol := "USDHL", decimals := 6 },
         { address := "0x5d3a1ff2b6bab83b63cd9ad0787074081a52ef34",
           symbol := "USDe", decimals := 18 }] }),
   ("9745",
    { blockchain := "plasma",
      normalization_token :=
        { address := "0xB8CE59FC3717ada4C02eaDF9682A9e934F625ebb",
          symbol := "USDT0", decimals := 6 },
      trading_tokens :=
        [{ address := "0xeeeeeeeeeeeeeeeeeeeeeeeeeeeeeeeeeeeeeeee",
           symbol := "XPL", decimals := 18 },
         { address := "0x5d3a1ff2b6bab83b63cd9ad0787074081a52ef34",
           symbol := "USDe", decimals := 18 },
         { address := "0x9895d81bb462a195b4922ed7de0e3acd007c32cb",
           symbol := "WETH", decimals := 18 },
         { address := "0x1B64B9025EEbb9A6239575dF9Ea4b9Ac46D4d193",
           symbol := "XAUt0", decimals := 6 },
         { address := "0xc4374775489cb9c56003bf2c9b12495fc64f0771",
           symbol := "syrupUSDT", decimals := 6 },
         { address := "0xA3D68b74bF0528fdD07263c60d6488749044914b",
           symbol := "weETH", decimals := 18 },
         { address := "0x0A1a1A107E45b7Ced86833863f482BC5f4ed82EF",
           symbol := "USDai", decimals := 18 },
         { address := "0x0B2b2B2076d95dda7817e785989fE353fe955ef9",
           symbol := "sUSDai", decimals := 18 },
         { address := "0x87e617C7484aDE79FcD90db58BEB82B057facb48",
           symbol := "USDo", decimals := 18 },
         { address := "0x6eAf19b2FC24552925dB245F9Ff613157a7dbb4C",
           symbol := "XUSD", decimals := 6 },
         { address := "0x92A01Ab7317Ac318b39b00EB6704ba56F0245D7a",
           symbol := "trillions", decimals := 18 }] })]

/-- Modelled from the spec: `TOKEN_DECIMALS` is defined in
`src/core/runner.py`, which is not among the provided sources.  Per the spec it
is "a process-wide mapping from lower-cased token address to integer decimal
count, assembled externally from the static chain configuration tables".  It is
assembled here from every token (normalization and trading) of every configured
chain. -/
def TOKEN_DECIMALS : List (String × Nat) :=
  (CHAIN_CONFIG.foldr
      (fun p acc => (p.2.normalization_token :: p.2.trading_tokens) ++ acc) []).map
    (fun t => (pyLower t.address, t.decimals))

/-- Modelled from the spec: `USER_ADDRESS` is defined in
`src/data/user.py`, which is not among the provided sources.  Per the spec it
is "a configured placeholder address" used as the default taker; its concrete
value is immaterial to every claim. -/
def USER_ADDRESS : String := "0x0000000000000000000000000000000000000000"

/-- The environment-backed settings object of
`src/apps/api/src/providers/zerox/config.py`.  The field values are sourced
from environment variables (`ZEROX_URL`, `ZEROX_API_KEY`) at startup; they are
opaque strings here. -/
structure ZeroxSettings where
  url : String
  api_key : String

/-- Modelled from the spec: the settings instance, loaded at startup from
environment variables whose concrete values are not part of the sources. -/
def settings : ZeroxSettings :=
  { url := "ZEROX_URL", api_key := "ZEROX_API_KEY" }

/-- The provider name property (`ZeroxProvider.name`). -/
def providerName : String := "0x"

/-- The `ZeroxProvider.supported_chains` property, transcribed verbatim. -/
def supported_chains : List String :=
  ["1", "10", "56", "137", "42161", "8453", "43114", "9745"]

/-- The single outbound HTTP request issued by `get_quote` via
`requests.get(settings.url, headers=headers, params=params, timeout=10)`. -/
structure HttpRequest where
  method : String
  url : String
  headers : List (String × String)
  params : List (String × String)

/-- An HTTP response: status code and JSON body, the body assumed to be a JSON
object (the aggregator API returns objects), modelled as an association
list. -/
structure Response where
  status_code : Nat
  body : List (String × Json)

/-- Outcome of the single `requests.get` call: either a response was obtained
(any status code; `raise_for_status` decides afterwards whether it is treated
as an error), or a transport exception (timeout, connection error) was raised,
carrying no response object. -/
inductive HttpResult where
  | ok (r : Response) : HttpResult
  | exn (msg : String) : HttpResult

/-- The `str(e)` of the `HTTPError` raised by `raise_for_status` on a 4xx/5xx
response.  Its exact wording carries no behavioral contract; only its presence
does, so it is modelled schematically from the status code. -/
def httpErrorMessage (code : Nat) : String :=
  toString code ++ " Error for url: " ++ settings.url

/-- The outbound request built by `get_quote` (lines 22-33 of the provider):
the `headers` and `params` dict literals, in source order, sent by a single
`requests.get` to `settings.url`. -/
def zerox_request (chain from_token to_token : String) (from_amount : Int)
    (user_address : String) : HttpRequest :=
  { method := "GET"
    url := settings.url
    headers :=
      [("accept", "*/*"),
       ("content-type", "application/json"),
       ("0x-api-key", settings.api_key),
       ("0x-version", "v2")]
    params :=
      [("sellToken", from_token),
       ("buyToken", to_token),
       ("sellAmount", toString from_amount),
       ("taker", user_address),
       ("chainId", chain)] }

/-- The output-formatting block of `get_quote` (lines 43-70 of the provider):
given the buy token and `response.json().get("buyAmount")`, produce
`formatted_output`.  A falsy raw value leaves it `None`; otherwise the decimal
count of the lower-cased buy-token address is looked up in `TOKEN_DECIMALS`;
if found and `float(raw_output)` succeeds, the converted quotient is
`str`-formatted; an unknown decimal count, or any exception during conversion
(caught by the inner `except`), falls back to `str(raw_output)`. -/
def formatted_output_of (to_token : String) (raw : Option Json) : Option String :=
  match raw with
  | none => none
  | some v =>
    if pyTruthy v then
      match TOKEN_DECIMALS.lookup (pyLower to_token) with
      | some d =>
        match pyFloatOfJson v with
        | some f => some (pyReprFloat (f / (10 : ℚ) ^ d))
        | none => some (pyStrOfJson v)
      | none => some (pyStrOfJson v)
    else none

/-- The `ZeroxProvider.get_quote` method.  The outcome of its single
`requests.get` call and the measured wall-clock elapsed time are explicit
inputs; the returned pair is the issued request together with the result
dictionary the method returns.  On an obtained response, `raise_for_status`
raises exactly for status codes in `[400, 600)`, producing the error-shaped
dictionary of the `except` clause with the response's status code; a transport
exception produces the same shape with status code `None`.  Otherwise the
success-shaped dictionary is built, with `response.json()` as the raw
response.  The method never raises to its caller (it is total) and never
retries (it consumes exactly one call outcome). -/
def get_quote (chain from_token to_token : String) (from_amount : Int)
    (user_address : String) (outcome : HttpResult) (elapsed : ℚ) :
    HttpRequest × List (String × PyVal) :=
  (zerox_request chain from_token to_token from_amount user_address,
   match outcome with
   | .exn msg =>
     [("name", .str providerName),
      ("error", .str msg),
      ("elapsed_time", .rat elapsed),
      ("status_code", PyVal.none)]
   | .ok r =>
     if 400 ≤ r.status_code ∧ r.status_code < 600 then
       [("name", .str providerName),
        ("error", .str (httpErrorMessage r.status_code)),
        ("elapsed_time", .rat elapsed),
        ("status_code", .int r.status_code)]
     else
       [("name", .str providerName),
        ("output_amount",
          match formatted_output_of to_token (r.body.lookup "buyAmount") with
          | some s => .str s
          | none => PyVal.none),
        ("elapsed_time", .rat elapsed),
        ("status_code", .int r.status_code),
        ("raw_response", .json (.obj r.body))])

/-- Python's default argument: `get_quote` invoked with the taker omitted uses
`USER_ADDRESS`. -/
def get_quote_default_taker (chain from_token to_token : String)
    (from_amount : Int) (outcome : HttpResult) (elapsed : ℚ) :
    HttpRequest × List (String × PyVal) :=
  get_quote chain from_token to_token from_amount USER_ADDRESS outcome elapsed

/-- The spec's output formula, following its words: "`output_amount ==
str(raw_amount / 10**decimals)`", the decimal string obtained by dividing the
raw returned amount by `10**decimals` (Python float division and `str`,
modelled exactly). -/
def spec_output_amount (raw_amount : ℚ) (decimals : Nat) : String :=
  pyReprFloat (raw_amount / (10 : ℚ) ^ decimals)

/-- Shape of the result dictionary on the success path (response obtained,
`raise_for_status` does not raise). -/
theorem get_quote_ok_record (chain from_token to_token user_address : String)
    (amt : Int) (r : Response) (e : ℚ)
    (h : ¬(400 ≤ r.status_code ∧ r.status_code < 600)) :
    (get_quote chain from_token to_token amt user_address (.ok r) e).2 =
      [("name", .str providerName),
       ("output_amount",
         match formatted_output_of to_token (r.body.lookup "buyAmount") with
         | some s => .str s
         | none => PyVal.none),
       ("elapsed_time", .rat e),
       ("status_code", .int r.status_code),
       ("raw_response", .json (.obj r.body))] := by
  simp [get_quote, h]

/-- Shape of the result dictionary when `raise_for_status` raises on a 4xx/5xx
response. -/
theorem get_quote_http_error_record (chain from_token to_token user_address : String)
    (amt : Int) (r : Response) (e : ℚ)
    (h : 400 ≤ r.status_code ∧ r.status_code < 600) :
    (get_quote chain from_token to_token amt user_address (.ok r) e).2 =
      [("name", .str providerName),
       ("error", .str (httpErrorMessage r.status_code)),
       ("elapsed_time", .rat e),
       ("status_code", .int r.status_code)] := by
  simp [get_quote, h]

/-- Shape of the result dictionary when the request itself raises a transport
exception (no response object). -/
theorem get_quote_exn_record (chain from_token to_token user_address : String)
    (amt : Int) (msg : String) (e : ℚ) :
    (get_quote chain from_token to_token amt user_address (.exn msg) e).2 =
      [("name", .str providerName),
       ("error", .str msg),
       ("elapsed_time", .rat e),
       ("status_code", PyVal.none)] := by
  simp [get_quote]

/-- Output formatting when the raw value is truthy, parses as a number, and
the buy token's decimal count is known. -/
theorem formatted_output_of_known (to_token : String) (v : Json) (q : ℚ) (d : Nat)
    (ht : pyTruthy v = true) (hq : pyFloatOfJson v = some q)
    (hd : TOKEN_DECIMALS.lookup (pyLower to_token) = some d) :
    formatted_output_of to_token (some v) =
      some (pyReprFloat (q / (10 : ℚ) ^ d)) := by
  simp [formatted_output_of, ht, hd, hq]

/-- Output formatting when the raw value is truthy but the buy token's decimal
count is unknown: the raw value is `str`-ed unchanged. -/
theorem formatted_output_of_unknown (to_token : String) (v : Json)
    (ht : pyTruthy v = true)
    (hd : TOKEN_DECIMALS.lookup (pyLower to_token) = none) :
    formatted_output_of to_token (some v) = some (pyStrOfJson v) := by
  simp [formatted_output_of, ht, hd]

/-- Output formatting when the raw value is truthy but `float()` raises: the
exception is caught and the raw value is `str`-ed unchanged, whether or not
the decimal count is known. -/
theorem formatted_output_of_parse_error (to_token : String) (v : Json)
    (ht : pyTruthy v = true) (hq : pyFloatOfJson v = none) :
    formatted_output_of to_token (some v) = some (pyStrOfJson v) := by
  cases hd : TOKEN_DECIMALS.lookup (pyLower to_token) with
  | none => simp [formatted_output_of, ht, hd]
  | some d => simp [formatted_output_of, ht, hd, hq]

/-- Output formatting when the raw value is falsy or absent: `None`. -/
theorem formatted_output_of_falsy (to_token : String) (raw : Option Json)
    (h : ∀ v, raw = some v → pyTruthy v = false) :
    formatted_output_of to_token raw = none := by
  cases raw with
  | none => rfl
  | some v => simp [formatted_output_of, h v rfl]

/-- Claim C7: every invocation of `get_quote` issues exactly one GET request to
the configured endpoint whose query parameters are the sell/buy token
addresses, the stringified sell amount, the taker (defaulting to the
configured placeholder address when omitted) and the chain id, with headers
`accept: */*`, `content-type: application/json`, the API key, and the fixed
version marker `v2`.  The embedding consumes a single call outcome per
invocation, so exactly one request is issued. -/
theorem C7_request_construction (chain from_token to_token user_address : String)
    (from_amount : Int) (outcome : HttpResult) (elapsed : ℚ) :
    (get_quote chain from_token to_token from_amount user_address outcome
        elapsed).1 =
      { method := "GET"
        url := settings.url
        headers := [("accept", "*/*"), ("content-type", "application/json"),
                    ("0x-api-key", settings.api_key), ("0x-version", "v2")]
        params := [("sellToken", from_token), ("buyToken", to_token),
                   ("sellAmount", toString from_amount), ("taker", user_address),
                   ("chainId", chain)] } ∧
    (get_quote_default_taker chain from_token to_token from_amount outcome
        elapsed).1.params.lookup "taker" = some USER_ADDRESS :=
  ⟨rfl, rfl⟩

/-- Claim C10: `get_quote` never validates its chain argument: `"999"` is
absent from `supported_chains` although it is configured in `CHAIN_CONFIG`,
and for every chain string whatsoever the request is built and sent with that
chain id unchanged. -/
theorem C10_no_chain_validation :
    supported_chains.contains "999" = false ∧
    (CHAIN_CONFIG.lookup "999").isSome = true ∧
    ∀ (chain from_token to_token user_address : String) (from_amount : Int)
      (outcome : HttpResult) (elapsed : ℚ),
      ((get_quote chain from_token to_token from_amount user_address outcome
          elapsed).1.params.lookup "chainId") = some chain :=
  ⟨rfl, rfl, fun _ _ _ _ _ _ _ => rfl⟩

/-- Claim C4: whenever a response object was obtainable (in particular on
every 4xx/5xx failure raised by `raise_for_status`), the result record carries
that response's HTTP status code in its `status_code` field, and the
`status_code` field is `None` exactly when no response was obtainable
(transport error or timeout). -/
theorem C4_failure_status_code (chain from_token to_token user_address : String)
    (from_amount : Int) (outcome : HttpResult) (elapsed : ℚ) :
    (∀ r, outcome = .ok r →
      ((get_quote chain from_token to_token from_amount user_address outcome
          elapsed).2.lookup "status_code") = some (.int r.status_code)) ∧
    (((get_quote chain from_token to_token from_amount user_address outcome
        elapsed).2.lookup "status_code") = some PyVal.none →
      ∃ msg, outcome = .exn msg) := by
  cases outcome with
  | ok r =>
    have hmain : ((get_quote chain from_token to_token from_amount user_address
        (.ok r) elapsed).2.lookup "status_code") = some (.int r.status_code) := by
      by_cases h : 400 ≤ r.status_code ∧ r.status_code < 600
      · rw [get_quote_http_error_record _ _ _ _ _ _ _ h]
        rfl
      · rw [get_quote_ok_record _ _ _ _ _ _ _ h]
        rfl
    refine ⟨?_, ?_⟩
    · rintro r' hr'
      injection hr' with h'
      subst h'
      exact hmain
    · intro hnone
      rw [hmain] at hnone
      simp at hnone
  | exn msg =>
    refine ⟨fun r h => HttpResult.noConfusion h, fun _ => ⟨msg, rfl⟩⟩

/-- Witness for C4 at a concrete 503 response. -/
theorem C4_witness :
    ((get_quote "1" "0xa" "0xb" 5 "0xu" (.ok ⟨503, []⟩) 1).2.lookup
        "status_code") = some (PyVal.int 503) :=
  (C4_failure_status_code "1" "0xa" "0xb" "0xu" 5 (.ok ⟨503, []⟩) 1).1 ⟨503, []⟩ rfl

/-- Claim C5: on a successful (2xx) response whose JSON body has no
`buyAmount` key, the result's `output_amount` is `None`, the result is a
normal success record (no `error` key), and no exception propagates (the
embedding is total). -/
theorem C5_absent_buyAmount (chain from_token to_token user_address : String)
    (from_amount : Int) (r : Response) (elapsed : ℚ)
    (h2xx : 200 ≤ r.status_code ∧ r.status_code < 300)
    (habs : r.body.lookup "buyAmount" = none) :
    ((get_quote chain from_token to_token from_amount user_address (.ok r)
        elapsed).2.lookup "output_amount") = some PyVal.none ∧
    ((get_quote chain from_token to_token from_amount user_address (.ok r)
        elapsed).2.lookup "error") = none := by
  have h : ¬(400 ≤ r.status_code ∧ r.status_code < 600) := by omega
  rw [get_quote_ok_record _ _ _ _ _ _ _ h, habs]
  exact ⟨rfl, rfl⟩

/-- Witness for C5 at a concrete 200 response with empty body object. -/
theorem C5_witness :
    ((get_quote "999" "0xa" "0xb" 7 USER_ADDRESS (.ok ⟨200, []⟩) 1).2.lookup
        "output_amount") = some PyVal.none ∧
    ((get_quote "999" "0xa" "0xb" 7 USER_ADDRESS (.ok ⟨200, []⟩) 1).2.lookup
        "error") = none :=
  C5_absent_buyAmount "999" "0xa" "0xb" USER_ADDRESS 7 ⟨200, []⟩ 1
    (by decide) rfl

/-- Claim C2: the spec's concrete scenario: chain `"999"`, selling
`10^18` base units of USDe for USDT0 (6 configured decimals); a 200 response
with `buyAmount = "2000000"` yields `output_amount == "2.0"`. -/
theorem C2_concrete_scenario (elapsed : ℚ) :
    ((get_quote "999" "0x5d3a1ff2b6bab83b63cd9ad0787074081a52ef34"
        "0xb8ce59fc3717ada4c02eadf9682a9e934f625ebb" 1000000000000000000
        USER_ADDRESS (.ok ⟨200, [("buyAmount", Json.str "2000000")]⟩)
        elapsed).2.lookup "output_amount") = some (PyVal.str "2.0") := by
  have h1 : ((get_quote "999" "0x5d3a1ff2b6bab83b63cd9ad0787074081a52ef34"
      "0xb8ce59fc3717ada4c02eadf9682a9e934f625ebb" 1000000000000000000
      USER_ADDRESS (.ok ⟨200, [("buyAmount", Json.str "2000000")]⟩)
      elapsed).2.lookup "output_amount")
      = some (PyVal.str (pyReprFloat ((2000000 : ℚ) / (10 : ℚ) ^ (6 : Nat)))) := rfl
  rw [h1, show (2000000 : ℚ) / (10 : ℚ) ^ (6 : Nat) = 2 by norm_num]
  rfl

/-- Claim C1 (amended): on a successful (2xx) response whose body holds a
truthy, numerically parseable `buyAmount`, when the lower-cased buy-token
address has a known decimal count `d`, the returned `output_amount` is the
spec's formula `str(raw_amount / 10**d)`. -/
theorem C1_conversion_known_decimals (chain from_token to_token user_address : String)
    (from_amount : Int) (r : Response) (elapsed : ℚ) (v : Json) (q : ℚ) (d : Nat)
    (h2xx : 200 ≤ r.status_code ∧ r.status_code < 300)
    (hv : r.body.lookup "buyAmount" = some v)
    (ht : pyTruthy v = true)
    (hq : pyFloatOfJson v = some q)
    (hd : TOKEN_DECIMALS.lookup (pyLower to_token) = some d) :
    ((get_quote chain from_token to_token from_amount user_address (.ok r)
        elapsed).2.lookup "output_amount")
      = some (PyVal.str (spec_output_amount q d)) := by
  have h : ¬(400 ≤ r.status_code ∧ r.status_code < 600) := by omega
  rw [get_quote_ok_record _ _ _ _ _ _ _ h, hv,
    formatted_output_of_known _ _ q d ht hq hd]
  rfl

/-- Witness for the amended C1: buyAmount `"3000000"`, buy token USDT0 with 6
known decimals, giving `"3.0"`. -/
theorem C1_witness :
    ((get_quote "999" "0x5d3a1ff2b6bab83b63cd9ad0787074081a52ef34"
        "0xb8ce59fc3717ada4c02eadf9682a9e934f625ebb" 1000000000000000000
        USER_ADDRESS (.ok ⟨200, [("buyAmount", Json.str "3000000")]⟩)
        1).2.lookup "output_amount")
      = some (PyVal.str (spec_output_amount 3000000 6)) ∧
    spec_output_amount 3000000 6 = "3.0" :=
  ⟨C1_conversion_known_decimals "999" "0x5d3a1ff2b6bab83b63cd9ad0787074081a52ef34"
      "0xb8ce59fc3717ada4c02eadf9682a9e934f625ebb" USER_ADDRESS 1000000000000000000
      ⟨200, [("buyAmount", Json.str "3000000")]⟩ 1 (Json.str "3000000") 3000000 6
      (by decide) rfl rfl rfl rfl,
   by
     show pyReprFloat ((3000000 : ℚ) / (10 : ℚ) ^ (6 : Nat)) = "3.0"
     rw [show (3000000 : ℚ) / (10 : ℚ) ^ (6 : Nat) = 3 by norm_num]
     rfl⟩

/-- Counterexample to C1 as stated: a 200 response whose body contains
`buyAmount` with the JSON number `0`, with the buy token's decimals known
(USDT0, 6), returns `output_amount = None` rather than the claimed
`str(0 / 10**6) = "0.0"`. -/
theorem C1_counterexample :
    ((get_quote "999" "0x5d3a1ff2b6bab83b63cd9ad0787074081a52ef34"
        "0xb8ce59fc3717ada4c02eadf9682a9e934f625ebb" 1000000000000000000
        USER_ADDRESS (.ok ⟨200, [("buyAmount", Json.intNum 0)]⟩)
        1).2.lookup "output_amount") = some PyVal.none ∧
    spec_output_amount 0 6 = "0.0" ∧
    (some PyVal.none == some (PyVal.str "0.0")) = false := by
  refine ⟨rfl, ?_, rfl⟩
  show pyReprFloat ((0 : ℚ) / (10 : ℚ) ^ (6 : Nat)) = "0.0"
  rw [zero_div]
  rfl

/-- Claim C3 (amended): on a successful (2xx) response with a truthy
`buyAmount` whose lower-cased buy-token address is not in `TOKEN_DECIMALS`,
the raw value is returned unconverted as `str(raw_amount)`, in a normal
success record (no `error` key). -/
theorem C3_unknown_decimals_fallback (chain from_token to_token user_address : String)
    (from_amount : Int) (r : Response) (elapsed : ℚ) (v : Json)
    (h2xx : 200 ≤ r.status_code ∧ r.status_code < 300)
    (hv : r.body.lookup "buyAmount" = some v)
    (ht : pyTruthy v = true)
    (hd : TOKEN_DECIMALS.lookup (pyLower to_token) = none) :
    ((get_quote chain from_token to_token from_amount user_address (.ok r)
        elapsed).2.lookup "output_amount") = some (PyVal.str (pyStrOfJson v)) ∧
    ((get_quote chain from_token to_token from_amount user_address (.ok r)
        elapsed).2.lookup "error") = none := by
  have h : ¬(400 ≤ r.status_code ∧ r.status_code < 600) := by omega
  rw [get_quote_ok_record _ _ _ _ _ _ _ h, hv,
    formatted_output_of_unknown _ _ ht hd]
  exact ⟨rfl, rfl⟩

/-- Witness for the amended C3: the spec's own scenario, buy token address not
in the decimals table and `buyAmount = "123456"`, giving `"123456"`
unchanged. -/
theorem C3_witness :
    ((get_quote "999" "0xaaa" "0xdead" 7 USER_ADDRESS
        (.ok ⟨200, [("buyAmount", Json.str "123456")]⟩) 1).2.lookup
      "output_amount") = some (PyVal.str (pyStrOfJson (Json.str "123456"))) ∧
    ((get_quote "999" "0xaaa" "0xdead" 7 USER_ADDRESS
        (.ok ⟨200, [("buyAmount", Json.str "123456")]⟩) 1).2.lookup
      "error") = none :=
  C3_unknown_decimals_fallback "999" "0xaaa" "0xdead" USER_ADDRESS 7
    ⟨200, [("buyAmount", Json.str "123456")]⟩ 1 (Json.str "123456")
    (by decide) rfl rfl rfl

/-- Counterexample to C3 as stated: a 200 response containing `buyAmount`
with the JSON number `0` and an unknown buy token returns
`output_amount = None`, not the claimed unconverted string `str(0) = "0"`. -/
theorem C3_counterexample :
    ((get_quote "1" "0xaaa" "0xdead" 7 USER_ADDRESS
        (.ok ⟨200, [("buyAmount", Json.intNum 0)]⟩) 1).2.lookup
      "output_amount") = some PyVal.none ∧
    pyStrOfJson (Json.intNum 0) = "0" ∧
    (some PyVal.none == some (PyVal.str "0")) = false :=
  ⟨rfl, rfl, rfl⟩

/-- Claim C8: presence of `buyAmount` is decided by Python truthiness, not key
membership: on a 2xx response whose body maps `buyAmount` to any falsy value
(the number 0, the empty string, `null`, `false`), `output_amount` is `None`,
exactly as when the key is absent. -/
theorem C8_falsy_buyAmount_is_none (chain from_token to_token user_address : String)
    (from_amount : Int) (r : Response) (elapsed : ℚ) (v : Json)
    (h2xx : 200 ≤ r.status_code ∧ r.status_code < 300)
    (hv : r.body.lookup "buyAmount" = some v)
    (hf : pyTruthy v = false) :
    ((get_quote chain from_token to_token from_amount user_address (.ok r)
        elapsed).2.lookup "output_amount") = some PyVal.none := by
  have h : ¬(400 ≤ r.status_code ∧ r.status_code < 600) := by omega
  rw [get_quote_ok_record _ _ _ _ _ _ _ h, hv,
    formatted_output_of_falsy to_token (some v) (fun w hw => by cases hw; exact hf)]
  rfl

/-- Witness for C8 at all four falsy shapes: the number 0, the empty string,
null, and false, each with the buy token's decimals known (USDT0). -/
theorem C8_witness :
    ((get_quote "999" "0xaaa" "0xb8ce59fc3717ada4c02eadf9682a9e934f625ebb" 7
        USER_ADDRESS (.ok ⟨200, [("buyAmount", Json.intNum 0)]⟩) 1).2.lookup
      "output_amount") = some PyVal.none ∧
    ((get_quote "999" "0xaaa" "0xb8ce59fc3717ada4c02eadf9682a9e934f625ebb" 7
        USER_ADDRESS (.ok ⟨200, [("buyAmount", Json.str "")]⟩) 1).2.lookup
      "output_amount") = some PyVal.none ∧
    ((get_quote "999" "0xaaa" "0xb8ce59fc3717ada4c02eadf9682a9e934f625ebb" 7
        USER_ADDRESS (.ok ⟨200, [("buyAmount", Json.null)]⟩) 1).2.lookup
      "output_amount") = some PyVal.none ∧
    ((get_quote "999" "0xaaa" "0xb8ce59fc3717ada4c02eadf9682a9e934f625ebb" 7
        USER_ADDRESS (.ok ⟨200, [("buyAmount", Json.bool false)]⟩) 1).2.lookup
      "output_amount") = some PyVal.none :=
  ⟨C8_falsy_buyAmount_is_none "999" "0xaaa"
      "0xb8ce59fc3717ada4c02eadf9682a9e934f625ebb" USER_ADDRESS 7
      ⟨200, [("buyAmount", Json.intNum 0)]⟩ 1 (Json.intNum 0) (by decide) rfl rfl,
   C8_falsy_buyAmount_is_none "999" "0xaaa"
      "0xb8ce59fc3717ada4c02eadf9682a9e934f625ebb" USER_ADDRESS 7
      ⟨200, [("buyAmount", Json.str "")]⟩ 1 (Json.str "") (by decide) rfl rfl,
   C8_falsy_buyAmount_is_none "999" "0xaaa"
      "0xb8ce59fc3717ada4c02eadf9682a9e934f625ebb" USER_ADDRESS 7
      ⟨200, [("buyAmount", Json.null)]⟩ 1 Json.null (by decide) rfl rfl,
   C8_falsy_buyAmount_is_none "999" "0xaaa"
      "0xb8ce59fc3717ada4c02eadf9682a9e934f625ebb" USER_ADDRESS 7
      ⟨200, [("buyAmount", Json.bool false)]⟩ 1 (Json.bool false) (by decide) rfl rfl⟩

/-- Claim C9: any exception raised during decimal conversion is caught and the
raw value is returned unconverted as a normal success: on a 2xx response with
a truthy `buyAmount` on which `float()` raises (`pyFloatOfJson` is `none`,
e.g. a non-numeric string, even with the buy token's decimals known), the
result has `output_amount = str(raw_amount)` and no `error` key. -/
theorem C9_conversion_exception_fallback (chain from_token to_token user_address : String)
    (from_amount : Int) (r : Response) (elapsed : ℚ) (v : Json)
    (h2xx : 200 ≤ r.status_code ∧ r.status_code < 300)
    (hv : r.body.lookup "buyAmount" = some v)
    (ht : pyTruthy v = true)
    (hp : pyFloatOfJson v = none) :
    ((get_quote chain from_token to_token from_amount user_address (.ok r)
        elapsed).2.lookup "output_amount") = some (PyVal.str (pyStrOfJson v)) ∧
    ((get_quote chain from_token to_token from_amount user_address (.ok r)
        elapsed).2.lookup "error") = none := by
  have h : ¬(400 ≤ r.status_code ∧ r.status_code < 600) := by omega
  rw [get_quote_ok_record _ _ _ _ _ _ _ h, hv,
    formatted_output_of_parse_error _ _ ht hp]
  exact ⟨rfl, rfl⟩

/-- Witness for C9: buyAmount `"abc"` with the buy token's decimals known
(USDT0, 6 decimals), returned unchanged as `"abc"`. -/
theorem C9_witness :
    ((get_quote "999" "0xaaa" "0xb8ce59fc3717ada4c02eadf9682a9e934f625ebb" 7
        USER_ADDRESS (.ok ⟨200, [("buyAmount", Json.str "abc")]⟩) 1).2.lookup
      "output_amount") = some (PyVal.str (pyStrOfJson (Json.str "abc"))) ∧
    ((get_quote "999" "0xaaa" "0xb8ce59fc3717ada4c02eadf9682a9e934f625ebb" 7
        USER_ADDRESS (.ok ⟨200, [("buyAmount", Json.str "abc")]⟩) 1).2.lookup
      "error") = none :=
  C9_conversion_exception_fallback "999" "0xaaa"
    "0xb8ce59fc3717ada4c02eadf9682a9e934f625ebb" USER_ADDRESS 7
    ⟨200, [("buyAmount", Json.str "abc")]⟩ 1 (Json.str "abc")
    (by decide) rfl rfl rfl

/-- Claim C6 (amended): for every transport failure and for every HTTP
response whose status is in 400..599 (the statuses `raise_for_status` treats
as errors), `get_quote` returns — never raises, never retries — a record with
the provider name, a non-null error string and a non-null elapsed time, and
with no `output_amount` key and no `raw_response` key; moreover no result of
`get_quote` ever carries both an `error` and a `raw_response`. -/
theorem C6_failure_record_shape (chain from_token to_token user_address : String)
    (from_amount : Int) (outcome : HttpResult) (elapsed : ℚ) :
    (∀ msg, outcome = .exn msg →
      ((get_quote chain from_token to_token from_amount user_address outcome
          elapsed).2.lookup "name") = some (.str providerName) ∧
      ((get_quote chain from_token to_token from_amount user_address outcome
          elapsed).2.lookup "error") = some (.str msg) ∧
      ((get_quote chain from_token to_token from_amount user_address outcome
          elapsed).2.lookup "elapsed_time") = some (.rat elapsed) ∧
      ((get_quote chain from_token to_token from_amount user_address outcome
          elapsed).2.lookup "output_amount") = none ∧
      ((get_quote chain from_token to_token from_amount user_address outcome
          elapsed).2.lookup "raw_response") = none) ∧
    (∀ r, outcome = .ok r → 400 ≤ r.status_code → r.status_code < 600 →
      ((get_quote chain from_token to_token from_amount user_address outcome
          elapsed).2.lookup "name") = some (.str providerName) ∧
      (∃ s, ((get_quote chain from_token to_token from_amount user_address outcome
          elapsed).2.lookup "error") = some (.str s)) ∧
      ((get_quote chain from_token to_token from_amount user_address outcome
          elapsed).2.lookup "elapsed_time") = some (.rat elapsed) ∧
      ((get_quote chain from_token to_token from_amount user_address outcome
          elapsed).2.lookup "output_amount") = none ∧
      ((get_quote chain from_token to_token from_amount user_address outcome
          elapsed).2.lookup "raw_response") = none) ∧
    ¬((((get_quote chain from_token to_token from_amount user_address outcome
          elapsed).2.lookup "error").isSome = true) ∧
      (((get_quote chain from_token to_token from_amount user_address outcome
          elapsed).2.lookup "raw_response").isSome = true)) := by
  cases outcome with
  | exn m =>
    refine ⟨?_, ?_, ?_⟩
    · rintro msg hm
      injection hm with h'
      subst h'
      rw [get_quote_exn_record]
      exact ⟨rfl, rfl, rfl, rfl, rfl⟩
    · exact fun r hr => HttpResult.noConfusion hr
    · rintro ⟨h1, h2⟩
      rw [get_quote_exn_record] at h2
      exact Bool.noConfusion (show false = true from h2)
  | ok r =>
    by_cases h : 400 ≤ r.status_code ∧ r.status_code < 600
    · refine ⟨fun msg hm => HttpResult.noConfusion hm, ?_, ?_⟩
      · rintro r' hr'
        injection hr' with h'
        subst h'
        intro _ _
        rw [get_quote_http_error_record _ _ _ _ _ _ _ h]
        exact ⟨rfl, ⟨httpErrorMessage r.status_code, rfl⟩, rfl, rfl, rfl⟩
      · rintro ⟨h1, h2⟩
        rw [get_quote_http_error_record _ _ _ _ _ _ _ h] at h2
        exact Bool.noConfusion (show false = true from h2)
    · refine ⟨fun msg hm => HttpResult.noConfusion hm, ?_, ?_⟩
      · rintro r' hr'
        injection hr' with h'
        subst h'
        intro h4 h6
        exact absurd ⟨h4, h6⟩ h
      · rintro ⟨h1, h2⟩
        rw [get_quote_ok_record _ _ _ _ _ _ _ h] at h1
        exact Bool.noConfusion (show false = true from h1)

/-- Witness for the amended C6 at a concrete timeout exception. -/
theorem C6_witness :
    ((get_quote "1" "0xa" "0xb" 5 "0xu" (.exn "timeout") 1).2.lookup
      "error") = some (.str "timeout") ∧
    ((get_quote "1" "0xa" "0xb" 5 "0xu" (.exn "timeout") 1).2.lookup
      "output_amount") = none ∧
    ((get_quote "1" "0xa" "0xb" 5 "0xu" (.exn "timeout") 1).2.lookup
      "raw_response") = none := by
  have h := (C6_failure_record_shape "1" "0xa" "0xb" "0xu" 5 (.exn "timeout") 1).1
    "timeout" rfl
  exact ⟨h.2.1, h.2.2.2.1, h.2.2.2.2⟩

/-- Counterexample to C6 as stated: a 304 response is non-2xx but is not
treated as a failure — `raise_for_status` raises only for 400..599 — so the
result is a success record: no `error` key, an `output_amount` key, and the
raw response payload. -/
theorem C6_counterexample :
    ((get_quote "1" "0xa" "0xb" 5 "0xu" (.ok ⟨304, []⟩) 1).2.lookup
      "error") = none ∧
    ((get_quote "1" "0xa" "0xb" 5 "0xu" (.ok ⟨304, []⟩) 1).2.lookup
      "output_amount") = some PyVal.none ∧
    ((get_quote "1" "0xa" "0xb" 5 "0xu" (.ok ⟨304, []⟩) 1).2.lookup
      "raw_response") = some (.json (.obj [])) :=
  ⟨rfl, rfl, rfl⟩
